import Mathlib

/-!
Verification of the impulse-wars simulation engine core against its
specification. The embedded definitions are translated from
`src/env.h`, `src/game.h` and `src/types.h`.

Machine `f32` values of the C source are modelled as rationals: every
claim settled here concerns value ranges, write sets, control flow or
exact small-integer data, where the rational model agrees with the
float semantics at the inputs evaluated. Code of the repository that
is not under `src/` (notably `helpers.h`, `settings.h`, `map.h` and
the weapon table) is modelled from the spec; each such definition
carries a doc comment starting with `Modelled from the spec:`.
-/

namespace ImpulseWars

/-- From `types.h`: `NUM_WEAPONS` (`_NUM_WEAPONS = 5`). -/
def NUM_WEAPONS : Nat := 5

/-- From `types.h`: `_MAX_DRONES = 4`. -/
def MAX_DRONES : Nat := 4

/-- Modelled from the spec: `scaleValue(v, max, positiveOnly)` of the
missing `helpers.h` is a saturating normalizer (spec section 2
"saturating `clamp`, `scaleValue` normalizer"; section 4.6 "All
real-valued fields are scaled to [-1,1] or [0,1] via
`scaleValue(v, max, positiveOnly)`"). -/
def scaleValue (v m : ℚ) (positiveOnly : Bool) : ℚ :=
  if positiveOnly then min 1 (max 0 (v / m)) else min 1 (max (-1) (v / m))

/-- Modelled from the spec: the missing `helpers.h` provides a
fixed-seed deterministic 64-bit PRNG (spec section 2 "Fixed seed
64-bit PRNG"); the state update is modelled as a 64-bit LCG step. -/
def rngNext (s : Nat) : Nat :=
  (s * 6364136223846793005 + 1442695040888963407) % (2 ^ 64)

/-- Modelled from the spec: `randInt(&state, lo, hi)` of the missing
`helpers.h` advances the PRNG state and returns an integer in
`[lo, hi]`. -/
def randInt (s : Nat) (lo hi : Int) : Int × Nat :=
  let s1 := rngNext s
  (lo + (s1 : Int) % (hi - lo + 1), s1)

/-- Modelled from the spec: `randFloat(&state, lo, hi)` of the missing
`helpers.h` advances the PRNG state and returns a value in `[lo, hi]`
(spec section 4.1 "draws a uniform point inside that quadrant
AABB"). -/
def randFloat (s : Nat) (lo hi : ℚ) : ℚ × Nat :=
  let s1 := rngNext s
  (lo + (hi - lo) * ((s1 % 4096 : Nat) : ℚ) / 4096, s1)

/-- Squared Euclidean distance between two points
(`b2DistanceSquared`); `b2Distance` is its square root, so comparisons
between distances are embedded as comparisons between squared
distances, which is exact. -/
def dist2 (a b : ℚ × ℚ) : ℚ :=
  (a.1 - b.1) * (a.1 - b.1) + (a.2 - b.2) * (a.2 - b.2)

/-! ## Drone kill flags (`game.h`) -/

/-- From `game.h` (`droneEntity` of the current `types.h` snapshot):
the drone fields read or written by `killDrone` (`game.h:657-675`).
`bodyEnabled` models the box2d body flag toggled by `b2Body_Disable`. -/
structure DroneFlags where
  dead : Bool
  diedThisStep : Bool
  bodyEnabled : Bool
  braking : Bool
  chargingBurst : Bool
  energyFullyDepleted : Bool
  shotThisStep : Bool
  deriving DecidableEq, Repr

/-- From `game.h:657-675` (`killDrone`): early-returns on a dead
drone; sets `dead` and `diedThisStep`; early-returns when
`numDrones == 2`; otherwise disables the body and clears `braking`,
`chargingBurst`, `energyFullyDepleted` and `shotThisStep`. -/
def killDrone (numDrones : Nat) (d : DroneFlags) : DroneFlags :=
  if d.dead then d
  else
    let d1 := { d with dead := true, diedThisStep := true }
    if numDrones = 2 then d1
    else { d1 with bodyEnabled := false, braking := false, chargingBurst := false,
                   energyFullyDepleted := false, shotThisStep := false }

/-- A live drone that is braking with its body enabled. -/
def liveBrakingDrone : DroneFlags :=
  { dead := false, diedThisStep := false, bodyEnabled := true, braking := true,
    chargingBurst := true, energyFullyDepleted := true, shotThisStep := true }

/-- C5 counterexample: with the allowed drone count `numDrones = 2`,
`killDrone` on a live braking drone leaves the physics body enabled
and the braking, burst-charging, energy-depletion and shot flags set
(`game.h:665-668` returns before the cleanup), contradicting the claim
that these are cleared for every `numDrones` in `{2,3,4}`. -/
theorem c5_counterexample :
    (killDrone 2 liveBrakingDrone).braking = true ∧
    (killDrone 2 liveBrakingDrone).bodyEnabled = true ∧
    (killDrone 2 liveBrakingDrone).chargingBurst = true ∧
    (killDrone 2 liveBrakingDrone).energyFullyDepleted = true ∧
    (killDrone 2 liveBrakingDrone).shotThisStep = true := by
  decide

/-- C5 amended: `killDrone` is idempotent, and on a live drone it sets
`dead` and `diedThisStep`; when `numDrones ≠ 2` it additionally
disables the body and clears the braking, burst-charging,
energy-depletion and shot flags, while when `numDrones = 2` it changes
nothing but the two death flags. -/
theorem c5_killDrone_spec (n : Nat) (d : DroneFlags) (hlive : d.dead = false) :
    killDrone n (killDrone n d) = killDrone n d ∧
    (killDrone n d).dead = true ∧
    (killDrone n d).diedThisStep = true ∧
    (n ≠ 2 →
      (killDrone n d).bodyEnabled = false ∧
      (killDrone n d).braking = false ∧
      (killDrone n d).chargingBurst = false ∧
      (killDrone n d).energyFullyDepleted = false ∧
      (killDrone n d).shotThisStep = false) ∧
    (n = 2 → killDrone n d = { d with dead := true, diedThisStep := true }) := by
  by_cases h2 : n = 2 <;>
    simp [killDrone, hlive, h2]

/-- C5 witness: the amended statement evaluated at `numDrones = 3` on
a concrete live drone. -/
theorem c5_killDrone_spec_witness :
    killDrone 3 (killDrone 3 liveBrakingDrone) = killDrone 3 liveBrakingDrone ∧
    (killDrone 3 liveBrakingDrone).dead = true ∧
    (killDrone 3 liveBrakingDrone).diedThisStep = true ∧
    ((3 : Nat) ≠ 2 →
      (killDrone 3 liveBrakingDrone).bodyEnabled = false ∧
      (killDrone 3 liveBrakingDrone).braking = false ∧
      (killDrone 3 liveBrakingDrone).chargingBurst = false ∧
      (killDrone 3 liveBrakingDrone).energyFullyDepleted = false ∧
      (killDrone 3 liveBrakingDrone).shotThisStep = false) ∧
    ((3 : Nat) = 2 →
      killDrone 3 liveBrakingDrone =
        { liveBrakingDrone with dead := true, diedThisStep := true }) :=
  c5_killDrone_spec 3 liveBrakingDrone (by decide)

/-! ## Log buffer (`env.h:29-81`, `types.h`) -/

/-- From `types.h` (`droneStats`): the per-episode statistics fields
aggregated by `aggregateAndClearLogBuffer`; per-weapon `float` arrays
are modelled as functions on weapon indices. -/
structure DroneStatsQ where
  reward : ℚ
  wins : ℚ
  distanceTraveled : ℚ
  absDistanceTraveled : ℚ
  shotsFired : Nat → ℚ
  shotsHit : Nat → ℚ
  shotsTaken : Nat → ℚ
  ownShotsTaken : Nat → ℚ
  weaponsPickedUp : Nat → ℚ
  shotDistances : Nat → ℚ

/-- The all-zero statistics record (`logEntry log = {0}`). -/
def DroneStatsQ.zero : DroneStatsQ :=
  ⟨0, 0, 0, 0, fun _ => 0, fun _ => 0, fun _ => 0, fun _ => 0, fun _ => 0, fun _ => 0⟩

/-- From `types.h` (`logEntry`): episode length plus per-drone stats. -/
structure LogEntryQ where
  length : ℚ
  stats : Nat → DroneStatsQ

/-- The all-zero log entry. -/
def LogEntryQ.zero : LogEntryQ := ⟨0, fun _ => DroneStatsQ.zero⟩

/-- From `env.h:66-75`: one iteration of the innermost `k` loop of
`aggregateAndClearLogBuffer` for a fixed source entry `s` and
accumulator `a`. Note that the source adds `distanceTraveled` and
`absDistanceTraveled` inside this per-weapon loop. -/
def logWeaponAdd (n : ℚ) (s : DroneStatsQ) (a : DroneStatsQ) (k : Nat) : DroneStatsQ :=
  { a with
    distanceTraveled := a.distanceTraveled + s.distanceTraveled / n
    absDistanceTraveled := a.absDistanceTraveled + s.absDistanceTraveled / n
    shotsFired := fun k2 => if k2 = k then a.shotsFired k + s.shotsFired k / n else a.shotsFired k2
    shotsHit := fun k2 => if k2 = k then a.shotsHit k + s.shotsHit k / n else a.shotsHit k2
    shotsTaken := fun k2 => if k2 = k then a.shotsTaken k + s.shotsTaken k / n else a.shotsTaken k2
    ownShotsTaken := fun k2 => if k2 = k then a.ownShotsTaken k + s.ownShotsTaken k / n else a.ownShotsTaken k2
    weaponsPickedUp := fun k2 => if k2 = k then a.weaponsPickedUp k + s.weaponsPickedUp k / n else a.weaponsPickedUp k2
    shotDistances := fun k2 => if k2 = k then a.shotDistances k + s.shotDistances k / n else a.shotDistances k2 }

/-- From `env.h:63-75`: the per-drone body of the `j` loop, adding the
scaled reward and wins and then running the `k` loop over all
weapons. -/
def logStatsAdd (n : ℚ) (s : DroneStatsQ) (a : DroneStatsQ) : DroneStatsQ :=
  (List.range NUM_WEAPONS).foldl (logWeaponAdd n s)
    { a with reward := a.reward + s.reward / n, wins := a.wins + s.wins / n }

/-- From `env.h:59-76`: the per-entry body of the `i` loop of
`aggregateAndClearLogBuffer`: adds the scaled episode length, and the
per-drone stats for drone indices below `numDrones`. -/
def logEntryAdd (numDrones : Nat) (n : ℚ) (a : LogEntryQ) (s : LogEntryQ) : LogEntryQ :=
  { length := a.length + s.length / n
    stats := fun j => if j < numDrones then logStatsAdd n (s.stats j) (a.stats j) else a.stats j }

/-- From `env.h:50-81` (`aggregateAndClearLogBuffer`): returns the
zero entry when the buffer is empty, otherwise accumulates every
stored entry scaled by `1 / size` and resets the buffer size to 0
(modelled by returning the cleared buffer contents). -/
def aggregateAndClearLogBuffer (numDrones : Nat) (logs : List LogEntryQ) :
    LogEntryQ × List LogEntryQ :=
  if logs.length = 0 then (LogEntryQ.zero, logs)
  else (logs.foldl (logEntryAdd numDrones ((logs.length : ℚ))) LogEntryQ.zero, [])

/-- A single log entry whose drone 0 traveled distance 1. -/
def c7entry : LogEntryQ :=
  { length := 3
    stats := fun _ => { DroneStatsQ.zero with distanceTraveled := 1 } }

/-- C7 counterexample: aggregating a buffer holding the single entry
`c7entry` (drone 0 `distanceTraveled = 1`, so the arithmetic mean of
that field is 1) yields `distanceTraveled = 5 ≠ 1`: the source adds
the distance fields inside the per-weapon loop (`env.h:67-68`), so
they come out multiplied by `NUM_WEAPONS`. -/
theorem c7_counterexample :
    ((aggregateAndClearLogBuffer 1 [c7entry]).1.stats 0).distanceTraveled = 5 ∧
    ((aggregateAndClearLogBuffer 1 [c7entry]).1.stats 0).distanceTraveled ≠ 1 := by
  constructor <;>
    norm_num [aggregateAndClearLogBuffer, logEntryAdd, logStatsAdd, logWeaponAdd,
      NUM_WEAPONS, List.range_succ, c7entry, DroneStatsQ.zero, LogEntryQ.zero]

/-- Auxiliary: a fold whose step increases a projection `f` by a
per-element amount `δ` accumulates the sum of `δ`. -/
theorem foldl_additive {α : Type} (f : α → ℚ) (step : α → α → α) (δ : α → ℚ)
    (h : ∀ a s, f (step a s) = f a + δ s) :
    ∀ (l : List α) (a : α), f (l.foldl step a) = f a + (l.map δ).sum := by
  intro l
  induction l with
  | nil => intro a; simp
  | cons x xs ih => intro a; simp [List.foldl_cons, ih, h, add_assoc]

/-- Auxiliary: summing elementwise-divided values equals dividing the
sum. -/
theorem sum_map_div {α : Type} (l : List α) (g : α → ℚ) (n : ℚ) :
    (l.map (fun x => g x / n)).sum = (l.map g).sum / n := by
  induction l with
  | nil => simp
  | cons x xs ih => simp [ih, add_div]

theorem logStatsAdd_reward (n : ℚ) (s a : DroneStatsQ) :
    (logStatsAdd n s a).reward = a.reward + s.reward / n := by
  simp [logStatsAdd, NUM_WEAPONS, List.range_succ, logWeaponAdd]

theorem logStatsAdd_wins (n : ℚ) (s a : DroneStatsQ) :
    (logStatsAdd n s a).wins = a.wins + s.wins / n := by
  simp [logStatsAdd, NUM_WEAPONS, List.range_succ, logWeaponAdd]

theorem logStatsAdd_distanceTraveled (n : ℚ) (s a : DroneStatsQ) :
    (logStatsAdd n s a).distanceTraveled
      = a.distanceTraveled + (NUM_WEAPONS : ℚ) * (s.distanceTraveled / n) := by
  simp [logStatsAdd, NUM_WEAPONS, List.range_succ, logWeaponAdd]
  ring

theorem logStatsAdd_absDistanceTraveled (n : ℚ) (s a : DroneStatsQ) :
    (logStatsAdd n s a).absDistanceTraveled
      = a.absDistanceTraveled + (NUM_WEAPONS : ℚ) * (s.absDistanceTraveled / n) := by
  simp [logStatsAdd, NUM_WEAPONS, List.range_succ, logWeaponAdd]
  ring

theorem logStatsAdd_shotsFired (n : ℚ) (s a : DroneStatsQ) (k : Nat) (hk : k < NUM_WEAPONS) :
    (logStatsAdd n s a).shotsFired k = a.shotsFired k + s.shotsFired k / n := by
  simp only [NUM_WEAPONS] at hk
  interval_cases k <;>
    simp [logStatsAdd, NUM_WEAPONS, List.range_succ, logWeaponAdd]

theorem logStatsAdd_shotsHit (n : ℚ) (s a : DroneStatsQ) (k : Nat) (hk : k < NUM_WEAPONS) :
    (logStatsAdd n s a).shotsHit k = a.shotsHit k + s.shotsHit k / n := by
  simp only [NUM_WEAPONS] at hk
  interval_cases k <;>
    simp [logStatsAdd, NUM_WEAPONS, List.range_succ, logWeaponAdd]

theorem logStatsAdd_shotsTaken (n : ℚ) (s a : DroneStatsQ) (k : Nat) (hk : k < NUM_WEAPONS) :
    (logStatsAdd n s a).shotsTaken k = a.shotsTaken k + s.shotsTaken k / n := by
  simp only [NUM_WEAPONS] at hk
  interval_cases k <;>
    simp [logStatsAdd, NUM_WEAPONS, List.range_succ, logWeaponAdd]

theorem logStatsAdd_ownShotsTaken (n : ℚ) (s a : DroneStatsQ) (k : Nat) (hk : k < NUM_WEAPONS) :
    (logStatsAdd n s a).ownShotsTaken k = a.ownShotsTaken k + s.ownShotsTaken k / n := by
  simp only [NUM_WEAPONS] at hk
  interval_cases k <;>
    simp [logStatsAdd, NUM_WEAPONS, List.range_succ, logWeaponAdd]

theorem logStatsAdd_weaponsPickedUp (n : ℚ) (s a : DroneStatsQ) (k : Nat) (hk : k < NUM_WEAPONS) :
    (logStatsAdd n s a).weaponsPickedUp k = a.weaponsPickedUp k + s.weaponsPickedUp k / n := by
  simp only [NUM_WEAPONS] at hk
  interval_cases k <;>
    simp [logStatsAdd, NUM_WEAPONS, List.range_succ, logWeaponAdd]

theorem logStatsAdd_shotDistances (n : ℚ) (s a : DroneStatsQ) (k : Nat) (hk : k < NUM_WEAPONS) :
    (logStatsAdd n s a).shotDistances k = a.shotDistances k + s.shotDistances k / n := by
  simp only [NUM_WEAPONS] at hk
  interval_cases k <;>
    simp [logStatsAdd, NUM_WEAPONS, List.range_succ, logWeaponAdd]

/-- Auxiliary: summing elementwise left-scaled values equals scaling
the sum. -/
theorem sum_map_mul_left {α : Type} (l : List α) (g : α → ℚ) (c : ℚ) :
    (l.map (fun x => c * g x)).sum = c * (l.map g).sum := by
  induction l with
  | nil => simp
  | cons x xs ih => simp [ih, mul_add]

/-- C7 amended: aggregating a non-empty log buffer empties the buffer
and returns an entry whose episode length, per-drone reward and wins,
and every per-weapon counter equal the arithmetic mean of that field
over the stored entries; the `distanceTraveled` and
`absDistanceTraveled` fields instead come out as `NUM_WEAPONS` times
their mean, because the source accumulates them inside the per-weapon
loop. -/
theorem c7_aggregate_spec (nd : Nat) (logs : List LogEntryQ) (hne : logs ≠ []) :
    (aggregateAndClearLogBuffer nd logs).2 = [] ∧
    (aggregateAndClearLogBuffer nd logs).1.length
      = (logs.map LogEntryQ.length).sum / (logs.length : ℚ) ∧
    ∀ j < nd,
      ((aggregateAndClearLogBuffer nd logs).1.stats j).reward
        = (logs.map (fun e => (e.stats j).reward)).sum / (logs.length : ℚ) ∧
      ((aggregateAndClearLogBuffer nd logs).1.stats j).wins
        = (logs.map (fun e => (e.stats j).wins)).sum / (logs.length : ℚ) ∧
      ((aggregateAndClearLogBuffer nd logs).1.stats j).distanceTraveled
        = (NUM_WEAPONS : ℚ) *
            ((logs.map (fun e => (e.stats j).distanceTraveled)).sum / (logs.length : ℚ)) ∧
      ((aggregateAndClearLogBuffer nd logs).1.stats j).absDistanceTraveled
        = (NUM_WEAPONS : ℚ) *
            ((logs.map (fun e => (e.stats j).absDistanceTraveled)).sum / (logs.length : ℚ)) ∧
      ∀ k < NUM_WEAPONS,
        ((aggregateAndClearLogBuffer nd logs).1.stats j).shotsFired k
          = (logs.map (fun e => (e.stats j).shotsFired k)).sum / (logs.length : ℚ) ∧
        ((aggregateAndClearLogBuffer nd logs).1.stats j).shotsHit k
          = (logs.map (fun e => (e.stats j).shotsHit k)).sum / (logs.length : ℚ) ∧
        ((aggregateAndClearLogBuffer nd logs).1.stats j).shotsTaken k
          = (logs.map (fun e => (e.stats j).shotsTaken k)).sum / (logs.length : ℚ) ∧
        ((aggregateAndClearLogBuffer nd logs).1.stats j).ownShotsTaken k
          = (logs.map (fun e => (e.stats j).ownShotsTaken k)).sum / (logs.length : ℚ) ∧
        ((aggregateAndClearLogBuffer nd logs).1.stats j).weaponsPickedUp k
          = (logs.map (fun e => (e.stats j).weaponsPickedUp k)).sum / (logs.length : ℚ) ∧
        ((aggregateAndClearLogBuffer nd logs).1.stats j).shotDistances k
          = (logs.map (fun e => (e.stats j).shotDistances k)).sum / (logs.length : ℚ) := by
  have hlen : ¬ (logs.length = 0) := by
    simpa [List.length_eq_zero] using hne
  have key : aggregateAndClearLogBuffer nd logs
      = (logs.foldl (logEntryAdd nd ((logs.length : ℚ))) LogEntryQ.zero, []) := by
    simp [aggregateAndClearLogBuffer, hlen]
  rw [key]
  refine ⟨rfl, ?_, ?_⟩
  · rw [foldl_additive LogEntryQ.length (logEntryAdd nd ((logs.length : ℚ)))
      (fun e => e.length / (logs.length : ℚ)) (fun a s => rfl) logs LogEntryQ.zero,
      sum_map_div]
    simp [LogEntryQ.zero]
  intro j hj
  have hstats : ∀ a s, (logEntryAdd nd ((logs.length : ℚ)) a s).stats j
      = logStatsAdd ((logs.length : ℚ)) (s.stats j) (a.stats j) := by
    intro a s
    simp [logEntryAdd, hj]
  refine ⟨?_, ?_, ?_, ?_, ?_⟩
  · rw [foldl_additive (fun le => (le.stats j).reward) (logEntryAdd nd ((logs.length : ℚ)))
      (fun e => (e.stats j).reward / (logs.length : ℚ))
      (fun a s => by simp only [hstats, logStatsAdd_reward]) logs LogEntryQ.zero,
      sum_map_div]
    simp [LogEntryQ.zero, DroneStatsQ.zero]
  · rw [foldl_additive (fun le => (le.stats j).wins) (logEntryAdd nd ((logs.length : ℚ)))
      (fun e => (e.stats j).wins / (logs.length : ℚ))
      (fun a s => by simp only [hstats, logStatsAdd_wins]) logs LogEntryQ.zero,
      sum_map_div]
    simp [LogEntryQ.zero, DroneStatsQ.zero]
  · rw [foldl_additive (fun le => (le.stats j).distanceTraveled)
      (logEntryAdd nd ((logs.length : ℚ)))
      (fun e => (NUM_WEAPONS : ℚ) * ((e.stats j).distanceTraveled / (logs.length : ℚ)))
      (fun a s => by simp only [hstats, logStatsAdd_distanceTraveled]) logs LogEntryQ.zero,
      sum_map_mul_left, sum_map_div]
    simp [LogEntryQ.zero, DroneStatsQ.zero]
  · rw [foldl_additive (fun le => (le.stats j).absDistanceTraveled)
      (logEntryAdd nd ((logs.length : ℚ)))
      (fun e => (NUM_WEAPONS : ℚ) * ((e.stats j).absDistanceTraveled / (logs.length : ℚ)))
      (fun a s => by simp only [hstats, logStatsAdd_absDistanceTraveled]) logs LogEntryQ.zero,
      sum_map_mul_left, sum_map_div]
    simp [LogEntryQ.zero, DroneStatsQ.zero]
  intro k hk
  refine ⟨?_, ?_, ?_, ?_, ?_, ?_⟩
  · rw [foldl_additive (fun le => (le.stats j).shotsFired k)
      (logEntryAdd nd ((logs.length : ℚ)))
      (fun e => (e.stats j).shotsFired k / (logs.length : ℚ))
      (fun a s => by simp only [hstats, logStatsAdd_shotsFired _ _ _ k hk]) logs LogEntryQ.zero,
      sum_map_div]
    simp [LogEntryQ.zero, DroneStatsQ.zero]
  · rw [foldl_additive (fun le => (le.stats j).shotsHit k)
      (logEntryAdd nd ((logs.length : ℚ)))
      (fun e => (e.stats j).shotsHit k / (logs.length : ℚ))
      (fun a s => by simp only [hstats, logStatsAdd_shotsHit _ _ _ k hk]) logs LogEntryQ.zero,
      sum_map_div]
    simp [LogEntryQ.zero, DroneStatsQ.zero]
  · rw [foldl_additive (fun le => (le.stats j).shotsTaken k)
      (logEntryAdd nd ((logs.length : ℚ)))
      (fun e => (e.stats j).shotsTaken k / (logs.length : ℚ))
      (fun a s => by simp only [hstats, logStatsAdd_shotsTaken _ _ _ k hk]) logs LogEntryQ.zero,
      sum_map_div]
    simp [LogEntryQ.zero, DroneStatsQ.zero]
  · rw [foldl_additive (fun le => (le.stats j).ownShotsTaken k)
      (logEntryAdd nd ((logs.length : ℚ)))
      (fun e => (e.stats j).ownShotsTaken k / (logs.length : ℚ))
      (fun a s => by simp only [hstats, logStatsAdd_ownShotsTaken _ _ _ k hk]) logs LogEntryQ.zero,
      sum_map_div]
    simp [LogEntryQ.zero, DroneStatsQ.zero]
  · rw [foldl_additive (fun le => (le.stats j).weaponsPickedUp k)
      (logEntryAdd nd ((logs.length : ℚ)))
      (fun e => (e.stats j).weaponsPickedUp k / (logs.length : ℚ))
      (fun a s => by simp only [hstats, logStatsAdd_weaponsPickedUp _ _ _ k hk]) logs LogEntryQ.zero,
      sum_map_div]
    simp [LogEntryQ.zero, DroneStatsQ.zero]
  · rw [foldl_additive (fun le => (le.stats j).shotDistances k)
      (logEntryAdd nd ((logs.length : ℚ)))
      (fun e => (e.stats j).shotDistances k / (logs.length : ℚ))
      (fun a s => by simp only [hstats, logStatsAdd_shotDistances _ _ _ k hk]) logs LogEntryQ.zero,
      sum_map_div]
    simp [LogEntryQ.zero, DroneStatsQ.zero]

/-- C7 witness: the amended statement evaluated on the one-entry
buffer `[c7entry]` with `numDrones = 1`, drone 0, weapon 0. -/
theorem c7_aggregate_spec_witness :
    (aggregateAndClearLogBuffer 1 [c7entry]).2 = [] ∧
    (aggregateAndClearLogBuffer 1 [c7entry]).1.length
      = ([c7entry].map LogEntryQ.length).sum / (([c7entry] : List LogEntryQ).length : ℚ) ∧
    ((aggregateAndClearLogBuffer 1 [c7entry]).1.stats 0).distanceTraveled
      = (NUM_WEAPONS : ℚ) *
          (([c7entry].map (fun e => (e.stats 0).distanceTraveled)).sum
            / (([c7entry] : List LogEntryQ).length : ℚ)) ∧
    ((aggregateAndClearLogBuffer 1 [c7entry]).1.stats 0).shotsFired 0
      = ([c7entry].map (fun e => (e.stats 0).shotsFired 0)).sum
          / (([c7entry] : List LogEntryQ).length : ℚ) := by
  have h := c7_aggregate_spec 1 [c7entry] (by simp)
  exact ⟨h.1, h.2.1, (h.2.2 0 (by decide)).2.2.1,
    ((h.2.2 0 (by decide)).2.2.2.2 0 (by decide)).1⟩

/-! ## Action decoding (`env.h:657-721`) -/

/-- From `types.h` (`agentActions`): decoded per-drone actions. -/
structure AgentActions where
  move : ℚ × ℚ
  aim : ℚ × ℚ
  shoot : Bool
  deriving DecidableEq, Repr

/-- External math collaborators used by the continuous action decode:
`tanhf` (libm), `b2Length` and `b2Normalize` (box2d); they are
deterministic functions supplied as parameters, together with the
`ACTION_NOOP_MAGNITUDE` threshold from the missing `settings.h`. -/
structure ActionMathCtx where
  tanh : ℚ → ℚ
  len : ℚ × ℚ → ℚ
  normalize : ℚ × ℚ → ℚ × ℚ
  noopMagnitude : ℚ

/-- Modelled from the spec: `CONTINUOUS_ACTION_SIZE = 5` (spec
section 6 "*Continuous* (5 floats)"; `settings.h` is not in `src/`). -/
def CONTINUOUS_ACTION_SIZE : Nat := 5

/-- From `env.h:685-711` (`_computeActions`, continuous branch with
`manualActions == NULL`): move and aim pass through `tanh`, the C cast
`(bool)e->contActions[offset + 4]` makes `shoot` true exactly when the
raw scalar is nonzero, move is normalized above unit length or zeroed
below the no-op magnitude, and aim is zeroed below the no-op magnitude
and normalized otherwise. -/
def computeActionsCont (ctx : ActionMathCtx) (contActions : Nat → ℚ) (idx : Nat) :
    AgentActions :=
  let offset := idx * CONTINUOUS_ACTION_SIZE
  let move0 : ℚ × ℚ := (ctx.tanh (contActions (offset + 0)), ctx.tanh (contActions (offset + 1)))
  let aim0 : ℚ × ℚ := (ctx.tanh (contActions (offset + 2)), ctx.tanh (contActions (offset + 3)))
  let shoot : Bool := if contActions (offset + 4) = 0 then false else true
  let move1 : ℚ × ℚ :=
    if ctx.len move0 > 1 then ctx.normalize move0
    else if ctx.len move0 < ctx.noopMagnitude then (0, 0)
    else move0
  let aim1 : ℚ × ℚ :=
    if ctx.len aim0 < ctx.noopMagnitude then (0, 0) else ctx.normalize aim0
  { move := move1, aim := aim1, shoot := shoot }

/-- From `env.h:836-838`: within a substep, `droneShoot` is invoked
for a drone exactly when its decoded action has the `shoot` flag
set. -/
def shootAttempted (a : AgentActions) : Bool := a.shoot

/-- Concrete instantiation of the external math functions for
evaluation. -/
def actionMathCtx0 : ActionMathCtx :=
  { tanh := fun _ => 0, len := fun _ => 0, normalize := fun p => p, noopMagnitude := 1 / 10 }

/-- A continuous action buffer whose shoot scalar for drone 0 is
`0.25`. -/
def contActions25 : Nat → ℚ := fun i => if i = 4 then 1 / 4 else 0

/-- C6 counterexample: with the shoot scalar `0.25`, the code attempts
the shot (the C decode is the cast `(bool)f`, true for any nonzero
scalar, `env.h:689`), although `0.25 > 0.5` is false — refuting the
claim that a shot is attempted if and only if the scalar exceeds
`0.5`. -/
theorem c6_counterexample :
    shootAttempted (computeActionsCont actionMathCtx0 contActions25 0) = true ∧
    ¬ ((1 : ℚ) / 4 > 1 / 2) ∧ contActions25 (0 * CONTINUOUS_ACTION_SIZE + 4) = 1 / 4 := by
  refine ⟨?_, by norm_num, by norm_num [contActions25]⟩
  norm_num [shootAttempted, computeActionsCont, contActions25]

/-- C6 amended: in continuous mode the shot of a drone is attempted in a
substep if and only if the raw shoot scalar of its action is nonzero
(the C source casts the float to `bool`; there is no `0.5`
threshold). -/
theorem c6_shoot_iff_nonzero (ctx : ActionMathCtx) (contActions : Nat → ℚ) (idx : Nat) :
    shootAttempted (computeActionsCont ctx contActions idx) = true
      ↔ contActions (idx * CONTINUOUS_ACTION_SIZE + 4) ≠ 0 := by
  by_cases h : contActions (idx * CONTINUOUS_ACTION_SIZE + 4) = 0 <;>
    simp [shootAttempted, computeActionsCont, h]

/-! ## Reward buffer writes (`env.h:634-655`, `env.h:871-931`) -/

/-- From `env.h:634-655` (`computeRewards`): the indices of the
caller-owned `e->rewards` buffer written by one call — the
`WIN_REWARD` accumulation at `e->rewards[winner]` when the round is
over with a winner, then the per-agent accumulation loop over
`0..numAgents-1`. -/
def computeRewardsWriteIdxs (numAgents : Nat) (roundOver : Bool) (winner : Int) :
    List Nat :=
  (if roundOver = true ∧ winner ≠ -1 then [winner.toNat] else []) ++ List.range numAgents

/-- From `env.h:809` and `env.h:892`: per `stepEnv` call the rewards
buffer is first cleared at indices `0..numAgents-1` (`memset`), then
`computeRewards` accumulates. -/
def stepRewardWriteIdxs (numAgents : Nat) (roundOver : Bool) (winner : Int) : List Nat :=
  List.range numAgents ++ computeRewardsWriteIdxs numAgents roundOver winner

/-- From `env.h:871-884`: the substep loop over drones that computes
`lastAlive` — the highest drone index whose `dead` flag is clear, `-1`
when none. -/
def lastAliveOf (dead : List Bool) : Int :=
  (List.range dead.length).foldl
    (fun acc i => if dead.getD i true then acc else (i : Int)) (-1)

/-- From `env.h:873-888`: the number of dead drones counted by the
same loop, and the round-over test `deadDrones >= numDrones - 1`. -/
def roundOverOf (numDrones : Nat) (dead : List Bool) : Bool :=
  numDrones - 1 ≤ dead.count true

/-- C3: at the failing input `numDrones = 2`, `numAgents = 1` with the
agent drone 0 dead and the scripted-bot drone 1 last alive, the round
is over, `lastAlive = 1`, and `computeRewards` performs the
`WIN_REWARD` write at `e->rewards[1]` — an index that is not smaller
than `numAgents = 1`, so the write lands outside the caller-owned
agent reward entries `0..numAgents-1`, contradicting the claim. -/
theorem c3_win_reward_out_of_range :
    lastAliveOf [true, false] = 1 ∧
    roundOverOf 2 [true, false] = true ∧
    1 ∈ stepRewardWriteIdxs 1 (roundOverOf 2 [true, false]) (lastAliveOf [true, false]) ∧
    ¬ (1 < 1) := by
  decide

/-! ## findNearestCell (`env.h:84-109`) -/

/-- The grid data read by `findNearestCell`: the cell array with the
position stored per cell, and the grid dimensions. -/
structure CellGridEnv where
  columns : Nat
  rows : Nat
  cellPos : Nat → ℚ × ℚ

/-- The square of `FLT_MAX`. Distance comparisons of the source are
embedded on squared distances (`b2Distance` is the square root of
`dist2`, and squaring is monotone on nonnegative values, so every
comparison is preserved exactly); the precise value is irrelevant: it
only matters that every concrete squared distance evaluated here is
smaller. -/
def FLT_MAX_SQ : ℚ := 2 ^ 256

/-- From `env.h:85-94`: the neighbor offset table. The C array is
declared `uint8_t cellOffsets[8][2]`, so the literal `-1` entries are
stored as `255`; the usual arithmetic conversions then promote them to
the integer `255`, not `-1`. -/
def cellOffsets : List (Nat × Nat) :=
  [(255, 0), (1, 0), (0, 255), (0, 1), (255, 255), (1, 255), (255, 1), (1, 1)]

/-- From `env.h:84-109` (`findNearestCell`): for each of the 8
offsets, computes `newCellIdx` (a `uint16_t`, hence the reduction
modulo `2 ^ 16`; `cellRow`/`cellCol` are `uint8_t`); fetches the cell
at `cellIdx` (not `newCellIdx`) each iteration; `minDistance` is
initialized to `FLT_MAX` and never assigned again, so the test
`minDistance != fminf(minDistance, d)` holds whenever the distance to
the original cell is finite and the running `closestCell` is simply
overwritten by each iteration. -/
def findNearestCell (e : CellGridEnv) (pos : ℚ × ℚ) (cellIdx : Nat) : Nat :=
  let cellRow := (cellIdx / e.columns) % 256
  let cellCol := (cellIdx % e.columns) % 256
  cellOffsets.foldl
    (fun closestCell off =>
      let newCellIdx := (((cellRow + off.1) * e.columns) + (cellCol + off.2)) % 2 ^ 16
      if FLT_MAX_SQ ≠ min FLT_MAX_SQ (dist2 pos (e.cellPos cellIdx)) then newCellIdx
      else closestCell)
    cellIdx

/-- A 3x3 grid with unit cell spacing, cell `i` centered at
`(i mod 3, i div 3)`. -/
def c9grid : CellGridEnv :=
  { columns := 3, rows := 3, cellPos := fun i => (((i % 3 : Nat) : ℚ), ((i / 3 : Nat) : ℚ)) }

set_option maxRecDepth 16384

/-- C9: evaluating `findNearestCell` at the failing input — the
3x3 grid `c9grid`, a drone at `(1/10, 1)` whose cell `4` collides
with an earlier drone — returns cell `8` (the bottom-right diagonal
offset, the last table entry), although cell `3` is strictly closer to
the drone than every other 8-neighbor of cell `4`: the code never
updates `minDistance`, always measures the distance to the original
cell, and its unsigned offsets corrupt the negative-offset neighbor
indices, so the claimed nearest-empty-neighbor behavior does not
hold. -/
theorem c9_findNearestCell_bug :
    findNearestCell c9grid (1 / 10, 1) 4 = 8 ∧
    dist2 (1 / 10, 1) (c9grid.cellPos 3) < dist2 (1 / 10, 1) (c9grid.cellPos 0) ∧
    dist2 (1 / 10, 1) (c9grid.cellPos 3) < dist2 (1 / 10, 1) (c9grid.cellPos 1) ∧
    dist2 (1 / 10, 1) (c9grid.cellPos 3) < dist2 (1 / 10, 1) (c9grid.cellPos 2) ∧
    dist2 (1 / 10, 1) (c9grid.cellPos 3) < dist2 (1 / 10, 1) (c9grid.cellPos 5) ∧
    dist2 (1 / 10, 1) (c9grid.cellPos 3) < dist2 (1 / 10, 1) (c9grid.cellPos 6) ∧
    dist2 (1 / 10, 1) (c9grid.cellPos 3) < dist2 (1 / 10, 1) (c9grid.cellPos 7) ∧
    dist2 (1 / 10, 1) (c9grid.cellPos 3) < dist2 (1 / 10, 1) (c9grid.cellPos 8) ∧
    (8 : Nat) ≠ 3 := by
  norm_num [findNearestCell, cellOffsets, c9grid, dist2, FLT_MAX_SQ]

/-! ## Reset law (`env.h:416-570`) -/

/-- Modelled from the spec: the number of maps in the read-only map
bank (`map.h` is not in `src/`); the exact value is irrelevant to the
claims settled here. -/
def NUM_MAPS : Nat := 8

/-- Modelled from the spec: the round length in substeps
(`ROUND_STEPS` of the missing `settings.h`); exact value
irrelevant. -/
def ROUND_STEPS : Nat := 2048

/-- Modelled from the spec: substeps between sudden-death wall
placements (`SUDDEN_DEATH_STEPS` of the missing `settings.h`); exact
value irrelevant. -/
def SUDDEN_DEATH_STEPS : Nat := 128

/-- The scalar environment state relevant to the reset law. -/
structure SetupScalars where
  randState : Nat
  mapIdx : Int
  stepsLeft : Nat
  suddenDeathSteps : Nat
  suddenDeathWallCounter : Nat
  needsReset : Bool
  deriving DecidableEq, Repr

/-- From `env.h:416-464` (`setupEnv`), restricted to the scalar state
deciding the reset law: clears `needsReset`, resets the step counters,
and draws the map index from the PRNG (`env.h:429-433`, `firstMap = 0`
when training else `1`). The subsequent drone, floating-wall and
pickup creation draws advance `randState` further; they are omitted
here, which is conservative — the PRNG advance of the map draw alone
already separates one reset from two. -/
def setupEnvScalars (isTraining : Bool) (s : SetupScalars) : SetupScalars :=
  let firstMap : Int := if isTraining then 0 else 1
  let draw := randInt s.randState firstMap ((NUM_MAPS : Int) - 1)
  { randState := draw.2
    mapIdx := draw.1
    stepsLeft := ROUND_STEPS
    suddenDeathSteps := SUDDEN_DEATH_STEPS
    suddenDeathWallCounter := 0
    needsReset := false }

/-- From `env.h:567-570` (`resetEnv`): `clearEnv` (which touches
neither these scalars nor `randState`) followed by `setupEnv`. -/
def resetEnvScalars (isTraining : Bool) (s : SetupScalars) : SetupScalars :=
  setupEnvScalars isTraining s

/-- From `env.h:466-505` (`initEnv`): `e->randState = seed`, counters
zeroed, `needsReset = false`. -/
def initScalars (seed : Nat) : SetupScalars :=
  { randState := seed, mapIdx := 0, stepsLeft := 0, suddenDeathSteps := 0,
    suddenDeathWallCounter := 0, needsReset := false }

/-- C8 counterexample: starting from seed 0, `reset(); reset()` does
not reproduce the state of a single `reset()`: `resetEnv` never
re-seeds `randState`, so the second setup consumes a fresh PRNG state
and the resulting environment state (which contains the RNG state)
differs bit-for-bit. -/
theorem c8_counterexample :
    resetEnvScalars true (resetEnvScalars true (initScalars 0))
      ≠ resetEnvScalars true (initScalars 0) ∧
    (resetEnvScalars true (resetEnvScalars true (initScalars 0))).randState
      ≠ (resetEnvScalars true (initScalars 0)).randState := by
  decide

/-- C8 amended: `resetEnv` is a deterministic function of the
incoming `randState` (and the training flag): two resets started from
equal PRNG states produce bit-identical scalar environment state —
`reset(); reset()` differs from `reset()` only because each setup
advances the PRNG state. -/
theorem c8_reset_deterministic (b : Bool) (s t : SetupScalars)
    (h : s.randState = t.randState) :
    resetEnvScalars b s = resetEnvScalars b t := by
  simp [resetEnvScalars, setupEnvScalars, h]

/-- C8 witness: two states with equal `randState` but different
`mapIdx` reset to the same state. -/
theorem c8_reset_deterministic_witness :
    resetEnvScalars true { initScalars 7 with mapIdx := 3 }
      = resetEnvScalars true (initScalars 7) :=
  c8_reset_deterministic true { initScalars 7 with mapIdx := 3 } (initScalars 7) rfl

/-! ## Scalar observation vector (`env.h:241-414`) -/

/-- Modelled from the spec: the scaling constants of the missing
`settings.h` (`MAX_X_POS`, `MAX_Y_POS`, `MAX_ANGLE`, `MAX_SPEED`,
`MAX_DISTANCE`) and the float constant `PI`. Each is used here only as
the `max` argument of the saturating `scaleValue`, so the proved
bounds do not depend on the exact values. -/
def MAX_X_POS : ℚ := 40

/-- Modelled from the spec: see `MAX_X_POS`. -/
def MAX_Y_POS : ℚ := 40

/-- Modelled from the spec: see `MAX_X_POS`. -/
def MAX_ANGLE : ℚ := 4

/-- Modelled from the spec: see `MAX_X_POS`. -/
def MAX_SPEED : ℚ := 50

/-- Modelled from the spec: see `MAX_X_POS`. -/
def MAX_DISTANCE : ℚ := 80

/-- Modelled from the spec: see `MAX_X_POS`. -/
def PI_RAT : ℚ := 355 / 113

/-- From `env.h:111-118` (`scaleAmmo`): 0 when the ammo is infinite
(`INFINITE = -1`), otherwise the ammo scaled with `positiveOnly` by
the maximum ammo of the weapon. -/
def scaleAmmo (ammo maxAmmo : Int) : ℚ :=
  if ammo = -1 then 0 else scaleValue (ammo : ℚ) (maxAmmo : ℚ) true

/-- One `f32` store into the scalar observation vector: `scaled` when
the stored value is produced by `scaleValue` (carrying its
`positiveOnly` flag), `raw` when the source stores a small integer or
a cast boolean directly. -/
inductive ObsWrite where
  | scaled (positiveOnly : Bool) (value : ℚ)
  | raw (value : ℚ)
  deriving DecidableEq, Repr

/-- The C cast from `bool` to `float`. -/
def boolToQ (b : Bool) : ℚ := if b then 1 else 0

/-- Input of the near-wall block (`env.h:258-275`): the wall type and
the wall position relative to the agent drone, per KD-tree result. -/
structure NearWallObs where
  wtype : Nat
  relPos : ℚ × ℚ
  deriving DecidableEq, Repr

/-- Input of the floating-wall block (`env.h:277-296`). -/
structure FloatingWallObs where
  wtype : Nat
  relPos : ℚ × ℚ
  angle : ℚ
  vel : ℚ × ℚ
  deriving DecidableEq, Repr

/-- Input of the weapon-pickup block (`env.h:298-312`). -/
structure PickupObs where
  weapon : Nat
  relPos : ℚ × ℚ
  deriving DecidableEq, Repr

/-- Input of the projectile block (`env.h:314-335`), already truncated
to `NUM_PROJECTILE_OBS` entries by the source break. -/
structure ProjObs where
  wtype : Nat
  droneIdx : Nat
  relPos : ℚ × ℚ
  deriving DecidableEq, Repr

/-- Input of the enemy-drone block (`env.h:337-386`); quantities the
source obtains from box2d or libm (velocity, acceleration, normalized
relative position, the two `atan2f` angles, distance) appear here as
already-computed inputs. -/
structure EnemyObs where
  wtype : Nat
  inLineOfSight : Bool
  relPos : ℚ × ℚ
  distance : ℚ
  vel : ℚ × ℚ
  accel : ℚ × ℚ
  relNorm : ℚ × ℚ
  angle : ℚ
  lastAim : ℚ × ℚ
  aimAngle : ℚ
  ammo : Int
  maxAmmo : Int
  weaponCooldown : ℚ
  coolDownMax : ℚ
  charge : ℚ
  chargeMax : ℚ
  deriving DecidableEq, Repr

/-- Input of the agent-drone block (`env.h:388-412`). -/
structure SelfObs where
  wtype : Nat
  pos : ℚ × ℚ
  vel : ℚ × ℚ
  accel : ℚ × ℚ
  lastAim : ℚ × ℚ
  aimAngle : ℚ
  ammo : Int
  maxAmmo : Int
  weaponCooldown : ℚ
  coolDownMax : ℚ
  charge : ℚ
  chargeMax : ℚ
  hitShot : Bool
  tookShot : Bool
  ownShotTaken : Bool
  deriving DecidableEq, Repr

/-- From `env.h:260-274`: the three stores per near wall — the raw
wall type (`scalarObs[...] = wall->type`), then the scaled relative
position. -/
def nearWallWrites (w : NearWallObs) : List ObsWrite :=
  [ .raw ((w.wtype : ℚ)),
    .scaled false (scaleValue w.relPos.1 MAX_X_POS false),
    .scaled false (scaleValue w.relPos.2 MAX_Y_POS false) ]

/-- From `env.h:278-296`: the six stores per floating wall — the raw
`wall->type + 1`, then scaled position, angle and velocity. -/
def floatingWallWrites (w : FloatingWallObs) : List ObsWrite :=
  [ .raw (((w.wtype + 1 : Nat) : ℚ)),
    .scaled false (scaleValue w.relPos.1 MAX_X_POS false),
    .scaled false (scaleValue w.relPos.2 MAX_Y_POS false),
    .scaled false (scaleValue w.angle MAX_ANGLE false),
    .scaled false (scaleValue w.vel.1 MAX_SPEED false),
    .scaled false (scaleValue w.vel.2 MAX_SPEED false) ]

/-- From `env.h:300-312`: the three stores per weapon pickup — the raw
`pickup->weapon + 1`, then the scaled relative position. -/
def pickupWrites (p : PickupObs) : List ObsWrite :=
  [ .raw (((p.weapon + 1 : Nat) : ℚ)),
    .scaled false (scaleValue p.relPos.1 MAX_X_POS false),
    .scaled false (scaleValue p.relPos.2 MAX_Y_POS false) ]

/-- From `env.h:315-335`: the four stores per observed projectile —
the raw `weaponInfo->type + 1` and `droneIdx + 1`, then the scaled
relative position. -/
def projectileWrites (p : ProjObs) : List ObsWrite :=
  [ .raw (((p.wtype + 1 : Nat) : ℚ)),
    .raw (((p.droneIdx + 1 : Nat) : ℚ)),
    .scaled false (scaleValue p.relPos.1 MAX_X_POS false),
    .scaled false (scaleValue p.relPos.2 MAX_Y_POS false) ]

/-- From `env.h:341-386`: the eighteen stores per enemy drone. -/
def enemyDroneWrites (d : EnemyObs) : List ObsWrite :=
  [ .raw (((d.wtype + 1 : Nat) : ℚ)),
    .raw (boolToQ d.inLineOfSight),
    .scaled false (scaleValue d.relPos.1 MAX_X_POS false),
    .scaled false (scaleValue d.relPos.2 MAX_Y_POS false),
    .scaled true (scaleValue d.distance MAX_DISTANCE true),
    .scaled false (scaleValue d.vel.1 MAX_SPEED false),
    .scaled false (scaleValue d.vel.2 MAX_SPEED false),
    .scaled false (scaleValue d.accel.1 MAX_SPEED false),
    .scaled false (scaleValue d.accel.2 MAX_SPEED false),
    .scaled false (scaleValue d.relNorm.1 1 false),
    .scaled false (scaleValue d.relNorm.2 1 false),
    .scaled false (scaleValue d.angle PI_RAT false),
    .scaled false (scaleValue d.lastAim.1 1 false),
    .scaled false (scaleValue d.lastAim.2 1 false),
    .scaled false (scaleValue d.aimAngle PI_RAT false),
    .scaled true (scaleAmmo d.ammo d.maxAmmo),
    .scaled true (scaleValue d.weaponCooldown d.coolDownMax true),
    .scaled true (scaleValue d.charge d.chargeMax true) ]

/-- From `env.h:394-412`: the seventeen stores of the agent-drone
block, including the final `stepsLeft` store. -/
def selfDroneWrites (d : SelfObs) (stepsLeft : ℚ) : List ObsWrite :=
  [ .raw (((d.wtype + 1 : Nat) : ℚ)),
    .scaled false (scaleValue d.pos.1 MAX_X_POS false),
    .scaled false (scaleValue d.pos.2 MAX_Y_POS false),
    .scaled false (scaleValue d.vel.1 MAX_SPEED false),
    .scaled false (scaleValue d.vel.2 MAX_SPEED false),
    .scaled false (scaleValue d.accel.1 MAX_SPEED false),
    .scaled false (scaleValue d.accel.2 MAX_SPEED false),
    .scaled false (scaleValue d.lastAim.1 1 false),
    .scaled false (scaleValue d.lastAim.2 1 false),
    .scaled false (scaleValue d.aimAngle PI_RAT false),
    .scaled true (scaleAmmo d.ammo d.maxAmmo),
    .scaled true (scaleValue d.weaponCooldown d.coolDownMax true),
    .scaled true (scaleValue d.charge d.chargeMax true),
    .raw (boolToQ d.hitShot),
    .raw (boolToQ d.tookShot),
    .raw (boolToQ d.ownShotTaken),
    .scaled true (scaleValue stepsLeft ((ROUND_STEPS : Nat) : ℚ) true) ]

/-- The data one `computeObs` pass reads for a single agent. -/
structure ScalarObsIn where
  nearWalls : List NearWallObs
  floatingWalls : List FloatingWallObs
  pickups : List PickupObs
  projectiles : List ProjObs
  enemies : List EnemyObs
  self : SelfObs
  stepsLeft : ℚ

/-- From `env.h:241-414` (`computeObs`): the sequence of `f32` stores
into the scalar observation vector, in source order. -/
def computeScalarObsWrites (o : ScalarObsIn) : List ObsWrite :=
  (o.nearWalls.flatMap nearWallWrites) ++
  (o.floatingWalls.flatMap floatingWallWrites) ++
  (o.pickups.flatMap pickupWrites) ++
  (o.projectiles.flatMap projectileWrites) ++
  (o.enemies.flatMap enemyDroneWrites) ++
  selfDroneWrites o.self o.stepsLeft

/-- Well-formedness of the observation input, as guaranteed by the
engine: wall types are the three wall entity tags (`types.h`,
`entityTypeIsWall`), weapon types are below `NUM_WEAPONS`, and
projectile owners are drone indices below `_MAX_DRONES`. -/
def ScalarObsWF (o : ScalarObsIn) : Prop :=
  (∀ w ∈ o.nearWalls, w.wtype < 3) ∧
  (∀ w ∈ o.floatingWalls, w.wtype < 3) ∧
  (∀ p ∈ o.pickups, p.weapon < NUM_WEAPONS) ∧
  (∀ p ∈ o.projectiles, p.wtype < NUM_WEAPONS ∧ p.droneIdx < MAX_DRONES) ∧
  (∀ d ∈ o.enemies, d.wtype < NUM_WEAPONS) ∧
  o.self.wtype < NUM_WEAPONS

/-- The amended per-store bound: a `scaled` store lies in `[-1, 1]`,
and in `[0, 1]` when its `positiveOnly` flag is set; a `raw` store is
a natural number at most `bound`. -/
def writeOK (bound : Nat) : ObsWrite → Prop
  | .scaled b v => -1 ≤ v ∧ v ≤ 1 ∧ (b = true → 0 ≤ v)
  | .raw v => ∃ k : Nat, v = (k : ℚ) ∧ k ≤ bound

theorem scaleValue_bounds (v m : ℚ) (b : Bool) :
    -1 ≤ scaleValue v m b ∧ scaleValue v m b ≤ 1 ∧ (b = true → 0 ≤ scaleValue v m b) := by
  cases b <;>
    refine ⟨?_, ?_, ?_⟩ <;>
    norm_num [scaleValue, le_min_iff, min_le_iff, le_max_iff]

theorem writeOK_scaleValue (n : Nat) (v m : ℚ) (b : Bool) :
    writeOK n (ObsWrite.scaled b (scaleValue v m b)) :=
  scaleValue_bounds v m b

theorem writeOK_scaleAmmo (n : Nat) (a m : Int) :
    writeOK n (ObsWrite.scaled true (scaleAmmo a m)) := by
  unfold scaleAmmo
  by_cases h : a = -1
  · simp [h, writeOK]
  · simp only [h, if_false]
    exact writeOK_scaleValue n ((a : ℚ)) ((m : ℚ)) true

theorem writeOK_raw (n k : Nat) (hk : k ≤ n) : writeOK n (ObsWrite.raw ((k : ℚ))) :=
  ⟨k, rfl, hk⟩

theorem writeOK_bool (n : Nat) (hn : 1 ≤ n) (b : Bool) :
    writeOK n (ObsWrite.raw (boolToQ b)) := by
  cases b
  · exact ⟨0, by norm_num [boolToQ], Nat.zero_le n⟩
  · exact ⟨1, by norm_num [boolToQ], hn⟩

theorem nearWallWrites_ok (w : NearWallObs) (h : w.wtype < 3) :
    ∀ x ∈ nearWallWrites w, writeOK NUM_WEAPONS x := by
  intro x hx
  simp only [nearWallWrites, List.mem_cons, List.not_mem_nil, or_false] at hx
  rcases hx with rfl | rfl | rfl
  · exact writeOK_raw _ _ (by simp only [NUM_WEAPONS]; omega)
  · exact writeOK_scaleValue _ _ _ _
  · exact writeOK_scaleValue _ _ _ _

theorem floatingWallWrites_ok (w : FloatingWallObs) (h : w.wtype < 3) :
    ∀ x ∈ floatingWallWrites w, writeOK NUM_WEAPONS x := by
  intro x hx
  simp only [floatingWallWrites, List.mem_cons, List.not_mem_nil, or_false] at hx
  rcases hx with rfl | rfl | rfl | rfl | rfl | rfl
  · exact writeOK_raw _ _ (by simp only [NUM_WEAPONS]; omega)
  all_goals exact writeOK_scaleValue _ _ _ _

theorem pickupWrites_ok (p : PickupObs) (h : p.weapon < NUM_WEAPONS) :
    ∀ x ∈ pickupWrites p, writeOK NUM_WEAPONS x := by
  intro x hx
  simp only [pickupWrites, List.mem_cons, List.not_mem_nil, or_false] at hx
  rcases hx with rfl | rfl | rfl
  · exact writeOK_raw _ _ (by simp only [NUM_WEAPONS] at h ⊢; omega)
  all_goals exact writeOK_scaleValue _ _ _ _

theorem projectileWrites_ok (p : ProjObs) (h : p.wtype < NUM_WEAPONS)
    (h2 : p.droneIdx < MAX_DRONES) :
    ∀ x ∈ projectileWrites p, writeOK NUM_WEAPONS x := by
  intro x hx
  simp only [projectileWrites, List.mem_cons, List.not_mem_nil, or_false] at hx
  rcases hx with rfl | rfl | rfl | rfl
  · exact writeOK_raw _ _ (by simp only [NUM_WEAPONS] at h ⊢; omega)
  · exact writeOK_raw _ _ (by simp only [MAX_DRONES] at h2; simp only [NUM_WEAPONS]; omega)
  all_goals exact writeOK_scaleValue _ _ _ _

theorem enemyDroneWrites_ok (d : EnemyObs) (h : d.wtype < NUM_WEAPONS) :
    ∀ x ∈ enemyDroneWrites d, writeOK NUM_WEAPONS x := by
  intro x hx
  simp only [enemyDroneWrites, List.mem_cons, List.not_mem_nil, or_false] at hx
  rcases hx with rfl | rfl | rfl | rfl | rfl | rfl | rfl | rfl | rfl | rfl | rfl | rfl |
    rfl | rfl | rfl | rfl | rfl | rfl
  · exact writeOK_raw _ _ (by simp only [NUM_WEAPONS] at h ⊢; omega)
  · exact writeOK_bool _ (by simp only [NUM_WEAPONS]; omega) _
  · exact writeOK_scaleValue _ _ _ _
  · exact writeOK_scaleValue _ _ _ _
  · exact writeOK_scaleValue _ _ _ _
  · exact writeOK_scaleValue _ _ _ _
  · exact writeOK_scaleValue _ _ _ _
  · exact writeOK_scaleValue _ _ _ _
  · exact writeOK_scaleValue _ _ _ _
  · exact writeOK_scaleValue _ _ _ _
  · exact writeOK_scaleValue _ _ _ _
  · exact writeOK_scaleValue _ _ _ _
  · exact writeOK_scaleValue _ _ _ _
  · exact writeOK_scaleValue _ _ _ _
  · exact writeOK_scaleValue _ _ _ _
  · exact writeOK_scaleAmmo _ _ _
  · exact writeOK_scaleValue _ _ _ _
  · exact writeOK_scaleValue _ _ _ _

theorem selfDroneWrites_ok (d : SelfObs) (stepsLeft : ℚ) (h : d.wtype < NUM_WEAPONS) :
    ∀ x ∈ selfDroneWrites d stepsLeft, writeOK NUM_WEAPONS x := by
  intro x hx
  simp only [selfDroneWrites, List.mem_cons, List.not_mem_nil, or_false] at hx
  rcases hx with rfl | rfl | rfl | rfl | rfl | rfl | rfl | rfl | rfl | rfl | rfl | rfl |
    rfl | rfl | rfl | rfl | rfl
  · exact writeOK_raw _ _ (by simp only [NUM_WEAPONS] at h ⊢; omega)
  · exact writeOK_scaleValue _ _ _ _
  · exact writeOK_scaleValue _ _ _ _
  · exact writeOK_scaleValue _ _ _ _
  · exact writeOK_scaleValue _ _ _ _
  · exact writeOK_scaleValue _ _ _ _
  · exact writeOK_scaleValue _ _ _ _
  · exact writeOK_scaleValue _ _ _ _
  · exact writeOK_scaleValue _ _ _ _
  · exact writeOK_scaleValue _ _ _ _
  · exact writeOK_scaleAmmo _ _ _
  · exact writeOK_scaleValue _ _ _ _
  · exact writeOK_scaleValue _ _ _ _
  · exact writeOK_bool _ (by simp only [NUM_WEAPONS]; omega) _
  · exact writeOK_bool _ (by simp only [NUM_WEAPONS]; omega) _
  · exact writeOK_bool _ (by simp only [NUM_WEAPONS]; omega) _
  · exact writeOK_scaleValue _ _ _ _

/-- C2 amended: on a well-formed observation input, every `f32` store
produced by `scaleValue` lies in `[-1, 1]`, and in `[0, 1]` when the
field is scaled with `positiveOnly`; the wall-type, pickup-type,
projectile-type, projectile-owner and drone-weapon fields, however,
are stored as raw small non-negative integers (type, type + 1,
droneIdx + 1, weapon + 1), bounded by `NUM_WEAPONS` but not confined
to `[-1, 1]`. -/
theorem c2_scalar_obs_bounds (o : ScalarObsIn) (h : ScalarObsWF o) :
    ∀ w ∈ computeScalarObsWrites o, writeOK NUM_WEAPONS w := by
  obtain ⟨h1, h2, h3, h4, h5, h6⟩ := h
  intro w hw
  unfold computeScalarObsWrites at hw
  rcases List.mem_append.mp hw with hw | hw
  rotate_left
  · exact selfDroneWrites_ok o.self o.stepsLeft h6 w hw
  rcases List.mem_append.mp hw with hw | hw
  rotate_left
  · obtain ⟨x, hx, hwx⟩ := List.mem_flatMap.mp hw
    exact enemyDroneWrites_ok x (h5 x hx) w hwx
  rcases List.mem_append.mp hw with hw | hw
  rotate_left
  · obtain ⟨x, hx, hwx⟩ := List.mem_flatMap.mp hw
    exact projectileWrites_ok x (h4 x hx).1 (h4 x hx).2 w hwx
  rcases List.mem_append.mp hw with hw | hw
  rotate_left
  · obtain ⟨x, hx, hwx⟩ := List.mem_flatMap.mp hw
    exact pickupWrites_ok x (h3 x hx) w hwx
  rcases List.mem_append.mp hw with hw | hw
  · obtain ⟨x, hx, hwx⟩ := List.mem_flatMap.mp hw
    exact nearWallWrites_ok x (h1 x hx) w hwx
  · obtain ⟨x, hx, hwx⟩ := List.mem_flatMap.mp hw
    exact floatingWallWrites_ok x (h2 x hx) w hwx

/-- An agent-drone record with the default weapon and zeroed state. -/
def selfObs0 : SelfObs :=
  { wtype := 0, pos := (0, 0), vel := (0, 0), accel := (0, 0), lastAim := (0, 0),
    aimAngle := 0, ammo := -1, maxAmmo := 0, weaponCooldown := 0, coolDownMax := 0,
    charge := 0, chargeMax := 0, hitShot := false, tookShot := false, ownShotTaken := false }

/-- An observation input whose nearest wall is a death wall
(`DEATH_WALL_ENTITY = 2` in `types.h`). -/
def c2input : ScalarObsIn :=
  { nearWalls := [{ wtype := 2, relPos := (0, 0) }], floatingWalls := [], pickups := [],
    projectiles := [], enemies := [], self := selfObs0, stepsLeft := 0 }

/-- C2 counterexample: when the nearest wall is a death wall, the
wall-type field is stored as the raw value `2` (`env.h:266` writes
`wall->type` unscaled), which lies neither in `[-1, 1]` nor in
`[0, 1]` — refuting the claim for the type fields it names. -/
theorem c2_counterexample :
    ObsWrite.raw 2 ∈ computeScalarObsWrites c2input ∧ ¬ ((2 : ℚ) ≤ 1) := by
  constructor
  · simp [computeScalarObsWrites, c2input, nearWallWrites, selfDroneWrites, selfObs0]
  · norm_num

/-- C2 witness: the amended statement applied to the concrete input
`c2input`, extracting the bound for the scaled relative-position store
of its near wall. -/
theorem c2_scalar_obs_bounds_witness :
    writeOK NUM_WEAPONS (ObsWrite.scaled false (scaleValue 0 MAX_X_POS false)) :=
  c2_scalar_obs_bounds c2input (by unfold ScalarObsWF; decide)
    (ObsWrite.scaled false (scaleValue 0 MAX_X_POS false))
    (by simp [computeScalarObsWrites, c2input, nearWallWrites])

/-! ## Contact event dispatch (`game.h:1897-1967`) -/

/-- The shape user-data entities that can appear in a contact event,
as dispatched by `handleContactEvents`. Walls carry their floating
flag (death walls kill regardless of it); shields carry the index of
their parent drone. -/
inductive CEnt where
  | standardWall (isFloating : Bool)
  | bouncyWall (isFloating : Bool)
  | deathWall (isFloating : Bool)
  | pickupE
  | droneE (idx : Fin 4)
  | shieldE (idx : Fin 4)
  | projE
  deriving DecidableEq, Repr

/-- One begin-touch contact event: the entities of shapes A and B,
`none` when `b2Shape_IsValid` fails for that shape. -/
abbrev ContactEv : Type := Option CEnt × Option CEnt

/-- The game state mutated by the death-wall branches of
`handleContactEvents`: per-drone kill flags and per-drone shield
presence (`drone->shield != NULL`). -/
structure ContactState where
  drones : Fin 4 → DroneFlags
  shields : Fin 4 → Bool

/-- The `killDrone` call of the contact handler on drone `i`
(`game.h:1924-1925`, `game.h:1938-1939`). -/
def killDroneAt (numDrones : Nat) (s : ContactState) (i : Fin 4) : ContactState :=
  { s with drones := Function.update s.drones i (killDrone numDrones (s.drones i)) }

/-- The `destroyDroneShield` call of the contact handler on the shield
of drone `i` (`game.h:1927-1928`, `game.h:1941-1942`;
`destroyDroneShield` frees the shield and sets `drone->shield = NULL`
without touching the kill flags). -/
def destroyShieldAt (s : ContactState) (i : Fin 4) : ContactState :=
  { s with shields := Function.update s.shields i false }

/-- From `game.h:1913-1945`: dispatch of one begin-touch event.
The projectile branch (`handleProjectileBeginContact`) mutates only
projectile, stats and energy state — never a `dead` flag or a shield —
so it is the identity on `ContactState`; its `e1 = NULL` overwrite is
irrelevant here because the second block consults `e1` only for
projectile or death-wall pairings. A death wall paired with a drone
calls `killDrone`; paired with a shield it calls `destroyDroneShield`
and (first block only) nulls `e2` so the second block skips the
event. -/
def processBeginEvent (numDrones : Nat) (s : ContactState) (ev : ContactEv) :
    ContactState :=
  let block1 : ContactState × Option CEnt :=
    match ev.1, ev.2 with
    | some (CEnt.deathWall _), some (CEnt.droneE i) => (killDroneAt numDrones s i, ev.2)
    | some (CEnt.deathWall _), some (CEnt.shieldE i) => (destroyShieldAt s i, none)
    | _, _ => (s, ev.2)
  match block1.2, ev.1 with
  | some (CEnt.deathWall _), some (CEnt.droneE i) => killDroneAt numDrones block1.1 i
  | some (CEnt.deathWall _), some (CEnt.shieldE i) => destroyShieldAt block1.1 i
  | _, _ => block1.1

/-- From `game.h:1898-1946`: the begin-touch loop of
`handleContactEvents` over the drained event list. -/
def handleContactBeginEvents (numDrones : Nat) (evs : List ContactEv)
    (s : ContactState) : ContactState :=
  evs.foldl (processBeginEvent numDrones) s

/-- Event `ev` pairs drone `i` with a death wall (in either shape
order, both shapes valid). -/
def droneDeathWallEv (i : Fin 4) (ev : ContactEv) : Prop :=
  (∃ f, ev = (some (CEnt.deathWall f), some (CEnt.droneE i))) ∨
  (∃ f, ev = (some (CEnt.droneE i), some (CEnt.deathWall f)))

/-- Event `ev` pairs the shield of drone `i` with a death wall. -/
def shieldDeathWallEv (i : Fin 4) (ev : ContactEv) : Prop :=
  (∃ f, ev = (some (CEnt.deathWall f), some (CEnt.shieldE i))) ∨
  (∃ f, ev = (some (CEnt.shieldE i), some (CEnt.deathWall f)))

theorem killDrone_dead (n : Nat) (d : DroneFlags) : (killDrone n d).dead = true := by
  by_cases h : d.dead <;> by_cases h2 : n = 2 <;> simp [killDrone, h, h2]

theorem killDroneAt_dead_mono (n : Nat) (t : ContactState) (j i : Fin 4)
    (h : (t.drones i).dead = true) :
    ((killDroneAt n t j).drones i).dead = true := by
  by_cases hij : i = j
  · subst hij
    simp [killDroneAt, Function.update, killDrone_dead]
  · simp [killDroneAt, Function.update, hij, h]

theorem killDroneAt_dead_self (n : Nat) (t : ContactState) (i : Fin 4) :
    ((killDroneAt n t i).drones i).dead = true := by
  simp [killDroneAt, Function.update, killDrone_dead]

theorem killDroneAt_drones_other (n : Nat) (t : ContactState) (j i : Fin 4)
    (hij : i ≠ j) : (killDroneAt n t j).drones i = t.drones i := by
  simp [killDroneAt, Function.update, hij]

theorem destroyShieldAt_drones (t : ContactState) (j : Fin 4) :
    (destroyShieldAt t j).drones = t.drones := rfl

theorem destroyShieldAt_shield_self (t : ContactState) (i : Fin 4) :
    (destroyShieldAt t i).shields i = false := by
  simp [destroyShieldAt, Function.update]

theorem destroyShieldAt_shield_mono (t : ContactState) (j i : Fin 4)
    (h : t.shields i = false) : (destroyShieldAt t j).shields i = false := by
  by_cases hij : i = j
  · subst hij; simp [destroyShieldAt, Function.update]
  · simp [destroyShieldAt, Function.update, hij, h]

theorem killDroneAt_shields (n : Nat) (t : ContactState) (j : Fin 4) :
    (killDroneAt n t j).shields = t.shields := rfl

/-- `processBeginEvent` never clears a `dead` flag. -/
theorem processBeginEvent_dead_mono (n : Nat) (s : ContactState) (ev : ContactEv)
    (i : Fin 4) (h : (s.drones i).dead = true) :
    ((processBeginEvent n s ev).drones i).dead = true := by
  obtain ⟨e1, e2⟩ := ev
  rcases e1 with _ | c1
  · rcases e2 with _ | c2
    · exact h
    · cases c2 <;> exact h
  · rcases e2 with _ | c2
    · cases c1 <;> exact h
    · cases c1 <;> cases c2 <;>
        first
        | exact h
        | exact killDroneAt_dead_mono n s _ i h

/-- A drone paired with a death wall by a dispatched event is marked
dead by that event. -/
theorem processBeginEvent_drone_hit (n : Nat) (s : ContactState) (ev : ContactEv)
    (i : Fin 4) (h : droneDeathWallEv i ev) :
    ((processBeginEvent n s ev).drones i).dead = true := by
  rcases h with ⟨f, rfl⟩ | ⟨f, rfl⟩
  · exact killDroneAt_dead_self n s i
  · exact killDroneAt_dead_self n s i

/-- An event that does not pair drone `i` with a death wall leaves the
record of drone `i` unchanged. -/
theorem processBeginEvent_drone_nohit (n : Nat) (s : ContactState) (ev : ContactEv)
    (i : Fin 4) (h : ¬ droneDeathWallEv i ev) :
    (processBeginEvent n s ev).drones i = s.drones i := by
  obtain ⟨e1, e2⟩ := ev
  rcases e1 with _ | c1
  · rcases e2 with _ | c2
    · rfl
    · cases c2 <;> rfl
  · rcases e2 with _ | c2
    · cases c1 <;> rfl
    · cases c1 <;> cases c2 <;> try rfl
      all_goals
        refine killDroneAt_drones_other n s _ i fun hij => h ?_
      · exact Or.inl ⟨_, by rw [hij]⟩
      · exact Or.inr ⟨_, by rw [hij]⟩

/-- A shield paired with a death wall by a dispatched event is
destroyed by that event. -/
theorem processBeginEvent_shield_hit (n : Nat) (s : ContactState) (ev : ContactEv)
    (i : Fin 4) (h : shieldDeathWallEv i ev) :
    (processBeginEvent n s ev).shields i = false := by
  rcases h with ⟨f, rfl⟩ | ⟨f, rfl⟩
  · exact destroyShieldAt_shield_self s i
  · exact destroyShieldAt_shield_self s i

/-- `processBeginEvent` never recreates a destroyed shield. -/
theorem processBeginEvent_shield_mono (n : Nat) (s : ContactState) (ev : ContactEv)
    (i : Fin 4) (h : s.shields i = false) :
    (processBeginEvent n s ev).shields i = false := by
  obtain ⟨e1, e2⟩ := ev
  rcases e1 with _ | c1
  · rcases e2 with _ | c2
    · exact h
    · cases c2 <;> exact h
  · rcases e2 with _ | c2
    · cases c1 <;> exact h
    · cases c1 <;> cases c2 <;>
        first
        | exact h
        | exact destroyShieldAt_shield_mono s _ i h

theorem handleContact_dead_mono (n : Nat) (evs : List ContactEv) (i : Fin 4) :
    ∀ s, (s.drones i).dead = true →
      ((handleContactBeginEvents n evs s).drones i).dead = true := by
  induction evs with
  | nil => intro s h; exact h
  | cons e t ih =>
    intro s h
    exact ih (processBeginEvent n s e) (processBeginEvent_dead_mono n s e i h)

theorem handleContact_shield_mono (n : Nat) (evs : List ContactEv) (i : Fin 4) :
    ∀ s, s.shields i = false →
      (handleContactBeginEvents n evs s).shields i = false := by
  induction evs with
  | nil => intro s h; exact h
  | cons e t ih =>
    intro s h
    exact ih (processBeginEvent n s e) (processBeginEvent_shield_mono n s e i h)

theorem handleContact_drone_hit (n : Nat) (evs : List ContactEv) (i : Fin 4) :
    ∀ s, (∃ ev ∈ evs, droneDeathWallEv i ev) →
      ((handleContactBeginEvents n evs s).drones i).dead = true := by
  induction evs with
  | nil =>
    intro s h
    simp at h
  | cons e t ih =>
    intro s h
    rcases h with ⟨ev, hev, hdw⟩
    rcases List.mem_cons.mp hev with rfl | hmem
    · exact handleContact_dead_mono n t i (processBeginEvent n s ev)
        (processBeginEvent_drone_hit n s ev i hdw)
    · exact ih (processBeginEvent n s e) ⟨ev, hmem, hdw⟩

theorem handleContact_shield_hit (n : Nat) (evs : List ContactEv) (i : Fin 4) :
    ∀ s, (∃ ev ∈ evs, shieldDeathWallEv i ev) →
      (handleContactBeginEvents n evs s).shields i = false := by
  induction evs with
  | nil =>
    intro s h
    simp at h
  | cons e t ih =>
    intro s h
    rcases h with ⟨ev, hev, hdw⟩
    rcases List.mem_cons.mp hev with rfl | hmem
    · exact handleContact_shield_mono n t i (processBeginEvent n s ev)
        (processBeginEvent_shield_hit n s ev i hdw)
    · exact ih (processBeginEvent n s e) ⟨ev, hmem, hdw⟩

theorem handleContact_drone_nohit (n : Nat) (evs : List ContactEv) (i : Fin 4) :
    ∀ s, (¬ ∃ ev ∈ evs, droneDeathWallEv i ev) →
      (handleContactBeginEvents n evs s).drones i = s.drones i := by
  induction evs with
  | nil => intro s _; rfl
  | cons e t ih =>
    intro s h
    have he : ¬ droneDeathWallEv i e := fun hd => h ⟨e, List.mem_cons_self e t, hd⟩
    have ht : ¬ ∃ ev ∈ t, droneDeathWallEv i ev := by
      rintro ⟨ev, hm, hd⟩
      exact h ⟨ev, List.mem_cons_of_mem e hm, hd⟩
    show (handleContactBeginEvents n t (processBeginEvent n s e)).drones i = s.drones i
    rw [ih (processBeginEvent n s e) ht, processBeginEvent_drone_nohit n s e i he]

/-- C10: over any dispatched begin-touch event list, every drone that
begins contact with a death wall (static or floating, in either shape
order) is marked dead; every shield that begins contact with a death
wall is destroyed; and a drone none of whose own contacts pair it with
a death wall keeps its record unchanged — in particular a
shield-death-wall contact alone leaves the drone of the shield alive. -/
theorem c10_death_wall_contacts (n : Nat) (evs : List ContactEv) (s : ContactState)
    (i : Fin 4) :
    ((∃ ev ∈ evs, droneDeathWallEv i ev) →
        ((handleContactBeginEvents n evs s).drones i).dead = true) ∧
    ((∃ ev ∈ evs, shieldDeathWallEv i ev) →
        (handleContactBeginEvents n evs s).shields i = false) ∧
    ((¬ ∃ ev ∈ evs, droneDeathWallEv i ev) →
        (handleContactBeginEvents n evs s).drones i = s.drones i) :=
  ⟨handleContact_drone_hit n evs i s, handleContact_shield_hit n evs i s,
   handleContact_drone_nohit n evs i s⟩

/-- All drones alive with shields present. -/
def contactState0 : ContactState :=
  { drones := fun _ =>
      { dead := false, diedThisStep := false, bodyEnabled := true, braking := false,
        chargingBurst := false, energyFullyDepleted := false, shotThisStep := false },
    shields := fun _ => true }

/-- Two events: a static death wall touching drone 0, and the shield
of drone 1 touching a floating death wall. -/
def contactEvs0 : List ContactEv :=
  [ (some (CEnt.deathWall false), some (CEnt.droneE 0)),
    (some (CEnt.shieldE 1), some (CEnt.deathWall true)) ]

/-- C10 witness: on the concrete event list, drone 0 dies, the shield
of drone 1 is destroyed, and drone 1 itself is unchanged (alive). -/
theorem c10_death_wall_contacts_witness :
    ((handleContactBeginEvents 2 contactEvs0 contactState0).drones 0).dead = true ∧
    (handleContactBeginEvents 2 contactEvs0 contactState0).shields 1 = false ∧
    (handleContactBeginEvents 2 contactEvs0 contactState0).drones 1
      = contactState0.drones 1 := by
  refine ⟨(c10_death_wall_contacts 2 contactEvs0 contactState0 0).1 ?_,
          (c10_death_wall_contacts 2 contactEvs0 contactState0 1).2.1 ?_,
          (c10_death_wall_contacts 2 contactEvs0 contactState0 1).2.2 ?_⟩
  · exact ⟨(some (CEnt.deathWall false), some (CEnt.droneE 0)),
      by simp [contactEvs0], Or.inl ⟨false, rfl⟩⟩
  · exact ⟨(some (CEnt.shieldE 1), some (CEnt.deathWall true)),
      by simp [contactEvs0], Or.inr ⟨true, rfl⟩⟩
  · simp only [droneDeathWallEv, contactEvs0]
    decide

/-! ## findOpenPos (`game.h:246-320`) -/

/-- Modelled from the spec: the grid cell size (`WALL_THICKNESS` of
the missing `settings.h`); the exact value is irrelevant to the claims
settled here. -/
def WALL_THICKNESS : ℚ := 4

/-- The C cast from a float coordinate to a cell index truncates
toward zero; every application in this file is to a nonnegative value,
where truncation coincides with the floor used here. -/
def truncQ (q : ℚ) : Int := Int.floor q

/-- From `game.h:20-22` (`cellIndex`). -/
def cellIndexOf (columns : Nat) (col row : Int) : Int := col + row * (columns : Int)

/-- Modelled from the spec: `PICKUP_SPAWN_DISTANCE_SQUARED` of the
missing `settings.h`; exact value irrelevant. -/
def PICKUP_SPAWN_DISTANCE_SQ : ℚ := 36

/-- Modelled from the spec: `DRONE_DRONE_SPAWN_DISTANCE_SQUARED` of
the missing `settings.h`; exact value irrelevant. -/
def DRONE_DRONE_SPAWN_DISTANCE_SQ : ℚ := 64

/-- The environment data read by `findOpenPos`: the cell array
(occupancy and stored position per cell), the grid dimensions, the
spawn-quadrant AABBs and drone-spawn mask, the current pickup
and drone positions, and the external `b2World_OverlapAABB` spacing
query (a deterministic function of the queried position for a fixed
world, shape filter and `MIN_SPAWN_DISTANCE`). -/
structure SpawnEnv where
  nCells : Nat
  columns : Nat
  rows : Nat
  occupied : Nat → Bool
  cellPos : Nat → ℚ × ℚ
  quadMin : Fin 4 → ℚ × ℚ
  quadMax : Fin 4 → ℚ × ℚ
  pickupPositions : List (ℚ × ℚ)
  dronePositions : List (ℚ × ℚ)
  droneSpawns : Nat → Bool
  overlapAABB : ℚ × ℚ → Bool

/-- From `game.h:26-38` (`entityPosToCellIdx`): discretizes a position
into a cell index, `-1` when out of bounds. The `int8_t` casts of the
source do not overflow for in-map positions. -/
def entityPosToCellIdx (e : SpawnEnv) (pos : ℚ × ℚ) : Int :=
  let cellX := pos.1 + (((e.columns : ℚ)) * WALL_THICKNESS) / 2
  let cellY := pos.2 + (((e.rows : ℚ)) * WALL_THICKNESS) / 2
  let cellCol := truncQ (cellX / WALL_THICKNESS)
  let cellRow := truncQ (cellY / WALL_THICKNESS)
  let cellIdx := cellIndexOf e.columns cellCol cellRow
  if cellIdx < 0 ∨ (e.nCells : Int) ≤ cellIdx then -1 else cellIdx

/-- From `types.h` (`shapeCategory`): the shape kinds `findOpenPos`
distinguishes (`WEAPON_PICKUP_SHAPE`, `DRONE_SHAPE`, any other). -/
inductive SpawnShape where
  | pickupShape
  | droneShape
  | otherShape
  deriving DecidableEq, Repr

/-- The `findOpenPos` loop state: the `checkedCells` bitset (modelled
as the list of set indices), the `attempts` counter, and the PRNG
state. -/
structure FindPosState where
  checked : List Nat
  attempts : Nat
  rand : Nat

/-- From `game.h:246-320` (`findOpenPos`), with an explicit iteration
budget: `none` means the budget ran out with the loop still running;
`some none` is the source `return false` (taken when
`attempts == nCells`); `some (some pos)` is the source `return true`
with `emptyPos` set. Each iteration samples a cell — uniformly over
all cells when `quad == -1`, else by drawing a point in the quadrant
AABB and discretizing it (the `uint16_t` conversion of the `int16_t`
result is the reduction modulo `65536`) —, skips already-checked
cells without advancing `attempts`, and otherwise marks the cell
checked, counts the attempt, and applies the occupancy, spacing,
drone-spawn-mask and AABB-overlap rejections in source order. -/
def findOpenPosLoop (e : SpawnEnv) (shape : SpawnShape) (quad : Int) :
    Nat → FindPosState → Option (Option (ℚ × ℚ))
  | 0, _ => none
  | fuel + 1, st =>
    if st.attempts = e.nCells then some none
    else
      let draw : Nat × Nat :=
        if quad = -1 then
          let d := randInt st.rand 0 ((e.nCells : Int) - 1)
          ((d.1 % 65536).toNat, d.2)
        else
          let q : Fin 4 := ⟨quad.toNat % 4, Nat.mod_lt _ (by norm_num)⟩
          let dx := randFloat st.rand (e.quadMin q).1 (e.quadMax q).1
          let dy := randFloat dx.2 (e.quadMin q).2 (e.quadMax q).2
          (((entityPosToCellIdx e (dx.1, dy.1)) % 65536).toNat, dy.2)
      let cellIdx := draw.1
      if cellIdx ∈ st.checked then
        findOpenPosLoop e shape quad fuel { st with rand := draw.2 }
      else
        let st1 : FindPosState :=
          { checked := cellIdx :: st.checked, attempts := st.attempts + 1, rand := draw.2 }
        if e.occupied cellIdx then findOpenPosLoop e shape quad fuel st1
        else if shape = SpawnShape.pickupShape ∧
            e.pickupPositions.any
              (fun p => dist2 (e.cellPos cellIdx) p < PICKUP_SPAWN_DISTANCE_SQ) then
          findOpenPosLoop e shape quad fuel st1
        else if shape = SpawnShape.droneShape ∧ ¬ e.droneSpawns cellIdx then
          findOpenPosLoop e shape quad fuel st1
        else if shape = SpawnShape.droneShape ∧
            e.dronePositions.any
              (fun p => dist2 (e.cellPos cellIdx) p < DRONE_DRONE_SPAWN_DISTANCE_SQ) then
          findOpenPosLoop e shape quad fuel st1
        else if e.overlapAABB (e.cellPos cellIdx) then
          findOpenPosLoop e shape quad fuel st1
        else some (some (e.cellPos cellIdx))

/-- A two-cell map (one row, two columns) whose spawn quadrant 0 AABB
covers only cell 0, with cell 0 occupied: every quadrant draw
discretizes to cell 0, so `attempts` can never reach `nCells = 2`. -/
def spawnEnvBad : SpawnEnv :=
  { nCells := 2, columns := 2, rows := 1,
    occupied := fun i => i == 0,
    cellPos := fun _ => (0, 0),
    quadMin := fun _ => (-4, -2),
    quadMax := fun _ => (-1, -1),
    pickupPositions := [], dronePositions := [],
    droneSpawns := fun _ => true,
    overlapAABB := fun _ => false }

theorem truncQ_eq_zero (q : ℚ) (h0 : 0 ≤ q) (h1 : q < 1) : truncQ q = 0 :=
  Int.floor_eq_zero_iff.mpr ⟨h0, h1⟩

/-- The modelled `randFloat` honors its range contract. -/
theorem randFloat_mem (s : Nat) (lo hi : ℚ) (h : lo ≤ hi) :
    lo ≤ (randFloat s lo hi).1 ∧ (randFloat s lo hi).1 ≤ hi := by
  unfold randFloat
  dsimp only
  have hc0 : (0:ℚ) ≤ ((rngNext s % 4096 : Nat) : ℚ) := Nat.cast_nonneg _
  have hc1 : ((rngNext s % 4096 : Nat) : ℚ) ≤ 4096 := by
    exact_mod_cast (Nat.mod_lt (rngNext s) (show 0 < 4096 by norm_num)).le
  constructor
  · nlinarith
  · nlinarith

/-- Every point of the quadrant-0 AABB of `spawnEnvBad` discretizes to
cell 0. -/
theorem spawnEnvBad_sample (x y : ℚ) (hx0 : -4 ≤ x) (hx1 : x ≤ -1)
    (hy0 : -2 ≤ y) (hy1 : y ≤ -1) :
    ((entityPosToCellIdx spawnEnvBad (x, y)) % 65536).toNat = 0 := by
  unfold entityPosToCellIdx spawnEnvBad
  dsimp only
  have hcol : truncQ ((x + ((2 : Nat) : ℚ) * WALL_THICKNESS / 2) / WALL_THICKNESS) = 0 := by
    apply truncQ_eq_zero <;> norm_num [WALL_THICKNESS] <;> linarith
  have hrow : truncQ ((y + ((1 : Nat) : ℚ) * WALL_THICKNESS / 2) / WALL_THICKNESS) = 0 := by
    apply truncQ_eq_zero <;> norm_num [WALL_THICKNESS] <;> linarith
  rw [hcol, hrow]
  norm_num [cellIndexOf]

/-- The loop states reachable in `spawnEnvBad` from a fresh call:
either nothing checked yet, or exactly cell 0 checked with one
attempt counted. -/
def badInv (st : FindPosState) : Prop :=
  (st.attempts = 0 ∧ st.checked = []) ∨ (st.attempts = 1 ∧ st.checked = [0])

theorem findOpenPosLoop_bad_none :
    ∀ (fuel : Nat) (st : FindPosState), badInv st →
      findOpenPosLoop spawnEnvBad SpawnShape.pickupShape 0 fuel st = none := by
  intro fuel
  induction fuel with
  | zero => intro st _; rfl
  | succ n ih =>
    intro st hinv
    have hx := randFloat_mem st.rand (-4) (-1) (by norm_num)
    have hy := randFloat_mem (randFloat st.rand (-4) (-1)).2 (-2) (-1) (by norm_num)
    have hcell := spawnEnvBad_sample (randFloat st.rand (-4) (-1)).1
      (randFloat (randFloat st.rand (-4) (-1)).2 (-2) (-1)).1 hx.1 hx.2 hy.1 hy.2
    have hatt : ¬ (st.attempts = spawnEnvBad.nCells) := by
      rcases hinv with ⟨h, _⟩ | ⟨h, _⟩ <;> simp [spawnEnvBad, h]
    rw [findOpenPosLoop]
    rw [if_neg hatt]
    simp only [show ¬ ((0 : Int) = -1) by norm_num, if_false]
    simp only [spawnEnvBad] at hcell ⊢
    simp only [hcell]
    rcases hinv with ⟨h0, hc⟩ | ⟨h1, hc⟩
    · rw [hc]
      rw [if_neg (List.not_mem_nil 0)]
      rw [if_pos (show ((0 == 0) = true) from rfl)]
      exact ih _ (Or.inr ⟨by simp [h0], rfl⟩)
    · rw [hc]
      rw [if_pos (show (0 : Nat) ∈ [0] by simp)]
      exact ih _ (Or.inr ⟨h1, rfl⟩)

/-- C4: `findOpenPos` does not terminate on the concrete environment
`spawnEnvBad` with quadrant 0 — for every iteration budget the loop is
still running, i.e. there is no number of iterations after which it
returns either true with a position or false: with a quadrant
argument, only cells inside the quadrant AABB are ever sampled, so
when those cells are all rejected the `attempts == nCells` exit is
unreachable and the `while (true)` loop spins forever, contradicting
the claimed termination (and the documented false return). -/
theorem c4_findOpenPos_nonterminating :
    ¬ ∃ fuel : Nat,
        (findOpenPosLoop spawnEnvBad SpawnShape.pickupShape 0 fuel
          { checked := [], attempts := 0, rand := 12345 }).isSome = true := by
  rintro ⟨fuel, hsome⟩
  rw [findOpenPosLoop_bad_none fuel _ (Or.inl ⟨rfl, rfl⟩)] at hsome
  exact Bool.false_ne_true hsome

/-! ## Lifecycle determinism (`env.h:466-505`, `env.h:788-941`) -/

/-- Modelled from the spec: `FRAMESKIP` of the missing `settings.h`
(spec Glossary: "The orchestrator executes `FRAMESKIP` physics
substeps per agent action"); exact value irrelevant. -/
def FRAMESKIP : Nat := 4

/-- The external collaborators of the orchestrator, over an abstract
physics-world state `W`: world construction for a chosen map
(`b2CreateWorld` + `createMap` + entity creation), the action
application of `env.h:819-839`, `b2World_Step`, `handleSuddenDeath`,
the post-physics phase (`handleBodyMoveEvents`, `projectilesStep`,
contact and sensor dispatch, `droneStep`, `weaponPickupsStep` —
threading the PRNG state it consumes), the scripted-bot policy, and
the output projections. Per spec section 5 the engine is strictly
single-threaded with no hidden inputs, so each collaborator is a
deterministic function of the state passed to it. -/
structure ExtWorld (W : Type) where
  createWorld : Int → W
  applyDroneActions : W → List AgentActions → W
  stepPhysics : W → W
  suddenDeath : W → W
  postPhysics : W → Nat → W × Nat
  scriptedBot : W → Nat → AgentActions
  deadFlags : W → List Bool
  obsOut : W → List ℚ
  rewardOut : W → Nat → ℚ

/-- The scalar environment state threaded by the orchestrator. -/
structure EnvModelState (W : Type) where
  world : W
  randState : Nat
  stepsLeft : Nat
  suddenDeathSteps : Nat
  episodeLength : Nat
  needsReset : Bool

/-- From `env.h:466-505` (`initEnv`) followed by `setupEnv`
(`env.h:416-464`): seed the PRNG, draw the map, build the world. -/
def initEnvModel {W : Type} (ext : ExtWorld W) (isTraining : Bool) (seed : Nat) :
    EnvModelState W :=
  let firstMap : Int := if isTraining then 0 else 1
  let draw := randInt seed firstMap ((NUM_MAPS : Int) - 1)
  { world := ext.createWorld draw.1, randState := draw.2, stepsLeft := ROUND_STEPS,
    suddenDeathSteps := SUDDEN_DEATH_STEPS, episodeLength := 0, needsReset := false }

/-- From `env.h:567-570` (`resetEnv`): tear down and set up again from
the current PRNG state. -/
def resetEnvWorld {W : Type} (ext : ExtWorld W) (isTraining : Bool)
    (s : EnvModelState W) : EnvModelState W :=
  let firstMap : Int := if isTraining then 0 else 1
  let draw := randInt s.randState firstMap ((NUM_MAPS : Int) - 1)
  { world := ext.createWorld draw.1, randState := draw.2, stepsLeft := ROUND_STEPS,
    suddenDeathSteps := SUDDEN_DEATH_STEPS, episodeLength := 0, needsReset := false }

/-- From `env.h:811-931`: one `FRAMESKIP` substep — apply the decoded
actions, step physics, decrement `stepsLeft`, run the sudden-death
controller when due, run the post-physics phase, and evaluate the
round-over condition (`deadDrones >= numDrones - 1`, or single-agent
timeout). Returns the new state and the round-over flag. -/
def substepModel {W : Type} (ext : ExtWorld W) (numDrones numAgents : Nat)
    (acts : List AgentActions) (s : EnvModelState W) : EnvModelState W × Bool :=
  let w1 := ext.stepPhysics (ext.applyDroneActions s.world acts)
  let stepsLeft := s.stepsLeft - 1
  let sd : Nat × W :=
    if stepsLeft = 0 ∧ 1 < numAgents then
      let sds := s.suddenDeathSteps - 1
      if sds = 0 then (SUDDEN_DEATH_STEPS, ext.suddenDeath w1) else (sds, w1)
    else (s.suddenDeathSteps, w1)
  let pp := ext.postPhysics sd.2 s.randState
  let dead := ext.deadFlags pp.1
  let roundOver :=
    decide (numDrones - 1 ≤ dead.count true) || (decide (numAgents = 1) && decide (stepsLeft = 0))
  ({ world := pp.1, randState := pp.2, stepsLeft := stepsLeft,
     suddenDeathSteps := sd.1, episodeLength := s.episodeLength + 1,
     needsReset := s.needsReset || roundOver }, roundOver)

/-- The `for i < FRAMESKIP` loop of `stepEnv` with its round-over
break. -/
def frameskipLoop {W : Type} (ext : ExtWorld W) (numDrones numAgents : Nat)
    (acts : List AgentActions) : Nat → EnvModelState W → EnvModelState W
  | 0, s => s
  | k + 1, s =>
    let r := substepModel ext numDrones numAgents acts s
    if r.2 then r.1 else frameskipLoop ext numDrones numAgents acts k r.1

/-- The caller-visible outputs of one `stepEnv` call. -/
structure StepOut where
  obs : List ℚ
  rewards : List ℚ
  terminals : List Bool
  truncations : List Bool

/-- From `env.h:788-941` (`stepEnv`): reset if flagged, decode the
per-drone actions (agents from the continuous action buffer, the rest
from the scripted bot), run the frameskip loop, then project the
outputs (`computeObs`, the reward accumulation, and the terminal or
truncation flags set at round end). -/
def stepEnvModel {W : Type} (ext : ExtWorld W) (ctx : ActionMathCtx)
    (numDrones numAgents : Nat) (isTraining : Bool) (contActions : Nat → ℚ)
    (s : EnvModelState W) : EnvModelState W × StepOut :=
  let s0 := if s.needsReset then resetEnvWorld ext isTraining s else s
  let acts := (List.range numDrones).map (fun i =>
    if i < numAgents then computeActionsCont ctx contActions i else ext.scriptedBot s0.world i)
  let s1 := frameskipLoop ext numDrones numAgents acts FRAMESKIP s0
  let dead := ext.deadFlags s1.world
  let roundOver := s1.needsReset
  let truncate := roundOver ∧ numAgents = 1 ∧ s1.stepsLeft = 0
  let terminals :=
    if roundOver ∧ ¬ (numAgents = 1 ∧ s1.stepsLeft = 0) then List.replicate numAgents true
    else (List.range numAgents).map (fun i => dead.getD i false)
  let truncations :=
    if truncate then List.replicate numAgents true else List.replicate numAgents false
  (s1, { obs := ext.obsOut s1.world,
         rewards := (List.range numAgents).map (ext.rewardOut s1.world),
         terminals := terminals, truncations := truncations })

/-- An environment instance driven over a sequence of action buffers:
`initEnv` followed by one `stepEnv` per buffer, collecting every
caller-visible output. -/
def runEnvModel {W : Type} (ext : ExtWorld W) (ctx : ActionMathCtx)
    (numDrones numAgents : Nat) (isTraining : Bool) (seed : Nat)
    (actionTrace : List (Nat → ℚ)) : List StepOut :=
  (actionTrace.foldl
    (fun (p : EnvModelState W × List StepOut) a =>
      let r := stepEnvModel ext ctx numDrones numAgents isTraining a p.1
      (r.1, p.2 ++ [r.2]))
    (initEnvModel ext isTraining seed, [])).2

/-- C1: two independently initialized instances given the same seed
and the same action-buffer sequence produce identical output traces
(observations, rewards, terminals, truncations after every step). The
whole pipeline — PRNG, physics, bots, output packing — is a function
of the state threaded through it (spec section 5), so equal seeds and
equal action sequences force bit-identical outputs. -/
theorem c1_determinism {W : Type} (ext : ExtWorld W) (ctx : ActionMathCtx)
    (numDrones numAgents : Nat) (isTraining : Bool) (seed1 seed2 : Nat)
    (acts1 acts2 : List (Nat → ℚ))
    (hseed : seed1 = seed2) (hacts : acts1 = acts2) :
    runEnvModel ext ctx numDrones numAgents isTraining seed1 acts1
      = runEnvModel ext ctx numDrones numAgents isTraining seed2 acts2 := by
  subst hseed
  subst hacts
  rfl

/-- A trivial one-point physics world for concrete evaluation. -/
def extUnit : ExtWorld Unit :=
  { createWorld := fun _ => (), applyDroneActions := fun w _ => w,
    stepPhysics := fun w => w, suddenDeath := fun w => w,
    postPhysics := fun w r => (w, rngNext r),
    scriptedBot := fun _ _ => { move := (0, 0), aim := (0, 1), shoot := false },
    deadFlags := fun _ => [false, false],
    obsOut := fun _ => [0], rewardOut := fun _ _ => 0 }

/-- C1 witness: the determinism statement evaluated on the concrete
one-point world, seed 99, one action buffer. -/
theorem c1_determinism_witness :
    runEnvModel extUnit actionMathCtx0 2 1 true 99 [fun _ => 0]
      = runEnvModel extUnit actionMathCtx0 2 1 true 99 [fun _ => 0] :=
  c1_determinism extUnit actionMathCtx0 2 1 true 99 99 [fun _ => 0] [fun _ => 0] rfl rfl

end ImpulseWars
